import Mathlib

/-!
Verification of the signal-ingestion-to-execution pipeline of the
MultiAgent-AutoTrading repository, by a shallow embedding of its Python
sources into Lean.

Conventions of the embedding:
* Python `float` values appearing in the claims are modelled as `ℚ`
  (all quantities involved in the settled claims are robust to the
  difference between binary floating point and exact rationals).
* Python `time.time()` / `datetime.now()` wall-clock readings are
  modelled as explicit `ℕ` arguments (seconds), threaded by the caller.
* Python `int(x)` (truncation toward zero) is `pyInt`.
* A Python method that can `raise` is modelled with an explicit outcome
  datatype; a method whose body contains no `raise` statement returns a
  plain value (it can never surface an exception to its caller).
-/

/-- Python `int(q)`: truncation toward zero, i.e. the floor for
non-negative arguments and the ceiling for negative ones. -/
def pyInt (q : ℚ) : ℤ :=
  if 0 ≤ q then ⌊q⌋ else ⌈q⌉

/-! ## src/utils/circuit_breaker.py -/

/-- `CircuitState` enum from `src/utils/circuit_breaker.py`. -/
inductive CircuitState where
  | CLOSED
  | OPEN
  | HALF_OPEN
deriving DecidableEq, Repr

/-- The mutable fields and constructor parameters of class
`CircuitBreaker` (`src/utils/circuit_breaker.py`, `__init__`). -/
structure CircuitBreaker where
  failure_threshold : ℕ := 5
  reset_timeout : ℕ := 60
  half_open_max_calls : ℕ := 1
  failure_count : ℕ := 0
  last_failure_time : ℕ := 0
  state : CircuitState := CircuitState.CLOSED
  half_open_count : ℕ := 0
deriving DecidableEq, Repr

/-- The names of the methods defined in the body of class
`CircuitBreaker`; the class defines no context-manager protocol
methods, which is what Python consults on a `with` statement. -/
def CircuitBreaker.methodNames : List String :=
  ["__init__", "execute", "record_failure", "reset", "get_state"]

namespace CircuitBreaker

/-- `CircuitBreaker.record_failure` (`src/utils/circuit_breaker.py`,
lines 61-68), with the wall clock passed explicitly. -/
def record_failure (cb : CircuitBreaker) (now : ℕ) : CircuitBreaker :=
  let cb1 := { cb with failure_count := cb.failure_count + 1,
                       last_failure_time := now }
  if (cb1.state = CircuitState.CLOSED ∧
        cb1.failure_count ≥ cb1.failure_threshold) ∨
      cb1.state = CircuitState.HALF_OPEN then
    { cb1 with state := CircuitState.OPEN }
  else
    cb1

/-- Outcome of one `CircuitBreaker.execute` call: either a
`CircuitBreakerError` is raised without invoking the protected
function, or the function is invoked and its result returned
(`returned`), or the function is invoked, fails, and the exception is
re-raised (`raised`). -/
inductive ExecOutcome where
  | circuitOpenError
  | halfOpenMaxError
  | returned
  | raised
deriving DecidableEq, Repr

/-- Whether an `execute` outcome invoked the protected function. -/
def ExecOutcome.invoked : ExecOutcome → Bool
  | ExecOutcome.returned => true
  | ExecOutcome.raised => true
  | _ => false

/-- `CircuitBreaker.execute` (`src/utils/circuit_breaker.py`, lines
30-59).  `now` is the `time.time()` reading, and `ok` tells whether
the protected function `func` would succeed when invoked. -/
def execute (cb : CircuitBreaker) (now : ℕ) (ok : Bool) :
    CircuitBreaker × ExecOutcome :=
  if cb.state = CircuitState.OPEN ∧
      ¬ (now - cb.last_failure_time ≥ cb.reset_timeout) then
    (cb, ExecOutcome.circuitOpenError)
  else
    let cb1 := if cb.state = CircuitState.OPEN then
        { cb with state := CircuitState.HALF_OPEN, half_open_count := 0 }
      else cb
    if cb1.state = CircuitState.HALF_OPEN ∧
        cb1.half_open_count ≥ cb1.half_open_max_calls then
      (cb1, ExecOutcome.halfOpenMaxError)
    else
      let cb2 := if cb1.state = CircuitState.HALF_OPEN then
          { cb1 with half_open_count := cb1.half_open_count + 1 }
        else cb1
      if ok then
        let cb3 := if cb2.state = CircuitState.HALF_OPEN then
            { cb2 with state := CircuitState.CLOSED, failure_count := 0,
                       half_open_count := 0 }
          else cb2
        (cb3, ExecOutcome.returned)
      else
        (cb2.record_failure now, ExecOutcome.raised)

end CircuitBreaker

/-! ## src/utils/retry.py -/

/-- Configuration parameters of `retry_with_backoff`
(`src/utils/retry.py`, lines 11-16), with the source defaults. -/
structure RetryConfig where
  max_retries : ℕ := 3
  backoff_factor : ℚ := 2
  jitter : Bool := true
  initial_delay : ℚ := 1/10
  max_delay : ℚ := 10
deriving Repr

/-- What one invocation of the wrapped callable does: returns normally,
raises an exception matching `tuple(exception_types)`, or raises an
exception outside the configured retryable types. -/
inductive FuncOutcome where
  | ok
  | retryableErr
  | otherErr
deriving DecidableEq, Repr

/-- Terminal outcome of the `while True` loop of `retry_with_backoff`. -/
inductive RetryFinal where
  | success
  | raisedRetryable
  | raisedOther
deriving DecidableEq, Repr

/-- The delay slept after the failed attempt of 0-based index `i`
(`src/utils/retry.py`, lines 37-39): at that point `retries = i + 1`,
so `current_delay = min(delay * backoff_factor ** (retries - 1),
max_delay)`, multiplied by `0.5 + random.random()` when `jitter` is
set.  `r i` is the `random.random()` reading of that iteration. -/
def retryDelay (cfg : RetryConfig) (r : ℕ → ℚ) (i : ℕ) : ℚ :=
  let current_delay := min (cfg.initial_delay * cfg.backoff_factor ^ i)
    cfg.max_delay
  if cfg.jitter then current_delay * (1/2 + r i) else current_delay

/-- The `while True` loop of the wrapper produced by
`retry_with_backoff` (`src/utils/retry.py`, lines 24-48).  `results i`
is the outcome of the attempt of 0-based index `i`, `i` the index of
the current attempt, and `remaining = max_retries - i` the number of
retries still allowed before `retries > max_retries` re-raises.
Returns the terminal outcome, the total number of attempts made, and
the list of delays slept between attempts. -/
def retryLoop (cfg : RetryConfig) (r : ℕ → ℚ) (results : ℕ → FuncOutcome) :
    ℕ → ℕ → RetryFinal × ℕ × List ℚ
  | i, 0 =>
    match results i with
    | FuncOutcome.ok => (RetryFinal.success, i + 1, [])
    | FuncOutcome.otherErr => (RetryFinal.raisedOther, i + 1, [])
    | FuncOutcome.retryableErr => (RetryFinal.raisedRetryable, i + 1, [])
  | i, rem + 1 =>
    match results i with
    | FuncOutcome.ok => (RetryFinal.success, i + 1, [])
    | FuncOutcome.otherErr => (RetryFinal.raisedOther, i + 1, [])
    | FuncOutcome.retryableErr =>
      let rest := retryLoop cfg r results (i + 1) rem
      (rest.1, rest.2.1, retryDelay cfg r i :: rest.2.2)

/-- The wrapper call of `retry_with_backoff` (`src/utils/retry.py`,
lines 23-48): starts at attempt index 0 with `max_retries` retries in
budget. -/
def retry_with_backoff (cfg : RetryConfig) (r : ℕ → ℚ)
    (results : ℕ → FuncOutcome) : RetryFinal × ℕ × List ℚ :=
  retryLoop cfg r results 0 cfg.max_retries

/-! ## src/core/discord_gateway.py -/

/-- The connection-related mutable fields of class `DiscordGateway`
(`src/core/discord_gateway.py`, `__init__`, lines 24-33). -/
structure GatewayState where
  running : Bool := false
  reconnect_count : ℕ := 0
  reconnect_max : ℕ := 20
  session_id : Option String := none
  last_sequence : Option ℕ := none
deriving DecidableEq, Repr

/-- Whether `_schedule_reconnect` armed a `threading.Timer`, and with
which delay in seconds. -/
inductive ScheduleEffect where
  | timerSet (delay : ℕ)
  | noTimer
deriving DecidableEq, Repr

/-- Everything observable about one `_schedule_reconnect` call: the
updated instance state, whether a reconnect timer was armed, whether
an exception was raised to the caller, and whether an error-level log
record was emitted. -/
structure ScheduleResult where
  state : GatewayState
  effect : ScheduleEffect
  raisedException : Option String
  errorLogged : Bool
deriving DecidableEq, Repr

namespace DiscordGateway

/-- `DiscordGateway._schedule_reconnect` (`src/core/discord_gateway.py`,
lines 144-157).  The body contains no `raise` statement, so
`raisedException` is `none` on every path: when the attempt budget is
exhausted the method logs an error and simply returns. -/
def scheduleReconnect (s : GatewayState) : ScheduleResult :=
  if ¬ s.running then
    ⟨s, ScheduleEffect.noTimer, none, false⟩
  else
    let s1 := { s with reconnect_count := s.reconnect_count + 1 }
    if s1.reconnect_count > s1.reconnect_max then
      ⟨s1, ScheduleEffect.noTimer, none, true⟩
    else
      ⟨s1, ScheduleEffect.timerSet (min 30 (2 ^ s1.reconnect_count)),
        none, false⟩

/-- The dispatch (`op == 0`) branch of `DiscordGateway._on_message`
(`src/core/discord_gateway.py`, lines 101-102 and 118-129): update
`last_sequence` from the frame's `s` field, then on `READY` store the
session id and reset `reconnect_count` to 0; on `MESSAGE_CREATE`
invoke the message callback (the returned `Bool`). -/
def onDispatch (s : GatewayState) (eventType : String)
    (sessionId : String) (seq : Option ℕ) : GatewayState × Bool :=
  let s1 := match seq with
    | some n => { s with last_sequence := some n }
    | none => s
  if eventType = "READY" then
    ({ s1 with session_id := some sessionId, reconnect_count := 0 }, false)
  else if eventType = "MESSAGE_CREATE" then
    (s1, true)
  else
    (s1, false)

end DiscordGateway

/-! ## src/core/message_processor.py -/

/-- `needle` matches `hay` position-by-position from the front. -/
def seqMatchesAt : List Char → List Char → Bool
  | [], _ => true
  | _ :: _, [] => false
  | c :: cs, d :: ds => c == d && seqMatchesAt cs ds

/-- Python's `needle in hay` on strings, over character lists:
`needle` occurs contiguously somewhere in `hay`. -/
def seqContains (hay needle : List Char) : Bool :=
  match hay with
  | [] => needle.isEmpty
  | _ :: rest => seqMatchesAt needle hay || seqContains rest needle

/-- Python `str.lower()`, as a character list. -/
def lowerStr (s : String) : List Char :=
  s.data.map Char.toLower

/-- The fields of class `MessageProcessor`
(`src/core/message_processor.py`, `__init__`, lines 20-23).
`signal_keywords` holds the already-lowercased keywords, as stored by
`__init__`; `processed_message_ids` models the Python set together
with its iteration order (the set's iteration order is arbitrary; the
embedding fixes insertion order, which the spec explicitly allows:
eviction is a capacity policy, not an LRU guarantee). -/
structure MessageProcessor where
  channel_ids : List String
  signal_keywords : List String
  processed_message_ids : List String := []
deriving Repr

/-- A decoded `MESSAGE_CREATE` payload, restricted to the fields
`process_message` reads (`src/core/message_processor.py`, lines 34-37). -/
structure MessageData where
  id : String
  channel_id : String
  content : String
  author : String
deriving Repr

namespace MessageProcessor

/-- `MessageProcessor._is_trading_signal`
(`src/core/message_processor.py`, lines 62-73). -/
def isTradingSignal (mp : MessageProcessor) (content : String) : Bool :=
  mp.signal_keywords.any (fun kw => seqContains (lowerStr content) kw.data)

/-- `MessageProcessor.process_message`
(`src/core/message_processor.py`, lines 25-60).  The returned `Bool`
is whether `signal_callback` was invoked. -/
def processMessage (mp : MessageProcessor) (m : MessageData) :
    MessageProcessor × Bool :=
  if m.channel_id ∈ mp.channel_ids ∧ m.id ∉ mp.processed_message_ids then
    let p1 := mp.processed_message_ids ++ [m.id]
    let p2 := if p1.length > 1000 then p1.drop 500 else p1
    ({ mp with processed_message_ids := p2 }, mp.isTradingSignal m.content)
  else
    (mp, false)

end MessageProcessor

/-! ## src/core/models.py -/

/-- Dataclass `AlertInfo` (`src/core/models.py`), restricted to the
fields the risk guard and executor read.  `direction` is the string
`"bull"` or `"bear"` produced by the parsers. -/
structure AlertInfo where
  symbol : String
  price : ℚ
  direction : String
  strategy_id : String
  correlation_id : String := ""
deriving DecidableEq, Repr

/-- Dataclass `OrderInfo` (`src/core/models.py`), restricted to the
fields set by the risk guard and the executor. -/
structure OrderInfo where
  symbol : String
  action : String
  quantity : ℤ
  order_type : String
  price : Option ℚ := none
  strategy_id : Option String := none
  correlation_id : Option String := none
  time_in_force : String := "DAY"
deriving DecidableEq, Repr

/-- The attribute names of dataclass `OrderInfo` (`src/core/models.py`,
lines 62-76); Python raises `AttributeError` on access to any other
name. -/
def OrderInfo.fieldNames : List String :=
  ["symbol", "action", "quantity", "order_type", "price", "stop_loss",
   "take_profit", "strategy_id", "correlation_id", "risk_score",
   "max_slippage", "time_in_force", "alert_timestamp"]

/-- Dataclass `AccountInfo` (`src/core/models.py`): `positions` maps a
symbol to its per-position numeric data. -/
structure AccountInfo where
  balance : ℚ
  positions : List (String × ℚ × ℚ) := []
  buying_power : Option ℚ := none
deriving DecidableEq, Repr

/-! ## src/core/executor.py -/

/-- The configuration of `ExecutionService`
(`src/core/executor.py`, lines 28-30), with the source defaults. -/
structure ExecutionConfig where
  default_order_type : String := "MARKET"
  default_slippage : ℚ := 1/1000
deriving Repr

namespace ExecutionService

/-- The order-construction core of `ExecutionService.execute_trade`
(`src/core/executor.py`, lines 85-104): choose the action from the
alert direction, apply slippage to the reference price when the price
is truthy (non-zero), and build the `OrderInfo` passed to
`broker.place_order`. -/
def buildOrder (cfg : ExecutionConfig) (alert : AlertInfo)
    (quantity : ℤ) (correlation_id : String) : OrderInfo :=
  let action := if alert.direction = "bull" then "BUY" else "SELL"
  let adjusted_price : Option ℚ :=
    if alert.price ≠ 0 then
      let slippage_factor := 1 +
        (if action = "BUY" then cfg.default_slippage
         else -cfg.default_slippage)
      some (alert.price * slippage_factor)
    else
      none
  { symbol := alert.symbol
    action := action
    quantity := quantity
    order_type := cfg.default_order_type
    price := adjusted_price
    time_in_force := "DAY"
    correlation_id := some correlation_id }

end ExecutionService

/-! ## src/core/risk_guard.py -/

/-- Lookup in a Python-dict model (association list keyed by string). -/
def assocLookup (l : List (String × ℕ)) (k : String) : Option ℕ :=
  (l.find? (fun p => p.1 == k)).map Prod.snd

/-- `d[k] = v` on a Python-dict model. -/
def assocSet (l : List (String × ℕ)) (k : String) (v : ℕ) :
    List (String × ℕ) :=
  if l.any (fun p => p.1 == k) then
    l.map (fun p => if p.1 == k then (k, v) else p)
  else
    l ++ [(k, v)]

/-- The fields of class `RiskGuardService` (`src/core/risk_guard.py`,
`__init__`, lines 12-35), with the source defaults.  Times are seconds
(`cooldown_period` is `timedelta(minutes=5)`), `daily_reset_day` is
the calendar day of `daily_pnl_reset_time`.
`account_info_provider` is `none` when no provider was passed;
otherwise it carries the result the provider's `get_account_info()`
call would produce (a value, or a raised exception). -/
structure RiskGuardService where
  max_position_size : ℚ := 1/50
  max_loss_per_trade : ℚ := 1/100
  daily_loss_limit : ℚ := 1/20
  max_open_positions : ℕ := 5
  recent_trades : List (String × ℕ) := []
  cooldown_period : ℕ := 300
  daily_pnl : ℚ := 0
  daily_reset_day : ℕ := 0
  blacklisted_symbols : List String := []
  account_info_provider : Option (Except String AccountInfo) := none
deriving Repr

namespace RiskGuardService

/-- The mock account built by `RiskGuardService._get_account_info`
when no provider is configured (`src/core/risk_guard.py`, lines
121-126). -/
def mockAccount : AccountInfo :=
  { balance := 100000, positions := [], buying_power := some 100000 }

/-- `RiskGuardService._get_account_info` (`src/core/risk_guard.py`,
lines 113-126).  The second component records whether the configured
provider was queried at all. -/
def getAccountInfo (p : Option (Except String AccountInfo)) :
    Option AccountInfo × Bool :=
  match p with
  | some (Except.ok a) => (some a, true)
  | some (Except.error _) => (none, true)
  | none => (some mockAccount, false)

/-- `RiskGuardService._check_daily_reset` (`src/core/risk_guard.py`,
lines 148-153): lazily zero `daily_pnl` at calendar-day rollover. -/
def checkDailyReset (s : RiskGuardService) (today : ℕ) : RiskGuardService :=
  if today > s.daily_reset_day then
    { s with daily_pnl := 0, daily_reset_day := today }
  else
    s

/-- `RiskGuardService._calculate_position_size`
(`src/core/risk_guard.py`, lines 128-146): dollar risk is
`balance * max_position_size`; a non-positive price yields `(0, 0)`;
otherwise the quantity is `int(position_dollar_size / alert.price)`
bumped to a minimum of 1. -/
def calcPositionSize (s : RiskGuardService) (alert : AlertInfo)
    (account : AccountInfo) : ℚ × ℤ :=
  let max_dollar_risk := account.balance * s.max_position_size
  let position_dollar_size := max_dollar_risk
  if alert.price ≤ 0 then
    (0, 0)
  else
    let quantity := pyInt (position_dollar_size / alert.price)
    (position_dollar_size, if quantity < 1 then 1 else quantity)

/-- Result of one `evaluate_alert` call: the `Optional[OrderInfo]`
return value, and whether the external account-info provider was
queried. -/
structure EvalOutcome where
  order : Option OrderInfo
  providerQueried : Bool
deriving DecidableEq, Repr

/-- `RiskGuardService.evaluate_alert` (`src/core/risk_guard.py`, lines
51-111), with the wall clock (`now`, seconds) and the calendar day
(`today`) passed explicitly.  Checks run in source order: blacklist,
cooldown, account fetch, daily loss limit, open-position cap, sized
quantity; on success the cooldown table is updated and an `OrderInfo`
returned. -/
def evaluateAlert (s0 : RiskGuardService) (alert : AlertInfo)
    (now : ℕ) (today : ℕ) : RiskGuardService × EvalOutcome :=
  let s := s0.checkDailyReset today
  if alert.symbol ∈ s.blacklisted_symbols then
    (s, ⟨none, false⟩)
  else
    let trade_key := alert.symbol ++ "_" ++ alert.direction
    let inCooldown : Bool := match assocLookup s.recent_trades trade_key with
      | some last_time => decide (now - last_time < s.cooldown_period)
      | none => false
    if inCooldown then
      (s, ⟨none, false⟩)
    else
      let fetched := getAccountInfo s.account_info_provider
      match fetched.1 with
      | none => (s, ⟨none, fetched.2⟩)
      | some account_info =>
        if s.daily_pnl ≤ -1 * s.daily_loss_limit * account_info.balance then
          (s, ⟨none, fetched.2⟩)
        else if account_info.positions.length ≥ s.max_open_positions then
          (s, ⟨none, fetched.2⟩)
        else
          let sized := s.calcPositionSize alert account_info
          if sized.2 ≤ 0 then
            (s, ⟨none, fetched.2⟩)
          else
            let action := if alert.direction = "bull" then "BUY"
              else "SELL_SHORT"
            let order_info : OrderInfo :=
              { symbol := alert.symbol
                action := action
                quantity := sized.2
                order_type := "MKT"
                price := some alert.price
                correlation_id := some alert.correlation_id
                strategy_id := some alert.strategy_id }
            ({ s with recent_trades := assocSet s.recent_trades trade_key now },
              ⟨some order_info, fetched.2⟩)

end RiskGuardService

/-! ## src/core/orchestrator.py -/

/-- The `stats` dictionary of `TradingOrchestrator`
(`src/core/orchestrator.py`, lines 25-33). -/
structure OrchestratorStats where
  alerts_received : ℕ := 0
  alerts_processed : ℕ := 0
  alerts_rejected : ℕ := 0
  alerts_failed : ℕ := 0
  orders_placed : ℕ := 0
  orders_filled : ℕ := 0
  orders_failed : ℕ := 0
deriving DecidableEq, Repr

/-- The pipeline-relevant fields of class `TradingOrchestrator`
(`src/core/orchestrator.py`).  `processed_alerts` maps a message's
content hash to its processed time; the embedding keys it by the
message text itself (the hash is deterministic within one process).
`risk_guard` is built by `_init_components` (line 64) as
`RiskGuardService(risk_config)` — with no account-info provider. -/
structure TradingOrchestrator where
  stats : OrchestratorStats := {}
  processed_alerts : List (String × ℕ) := []
  duplicate_window : ℕ := 60
  risk_guard : RiskGuardService := {}
deriving Repr

/-- Python's `with obj:` protocol check: entering requires the object's
class to provide both `__enter__` and `__exit__`; otherwise a
`TypeError`/`AttributeError` is raised at the `with` statement. -/
def pyWithEnter (methods : List String) : Except String Unit :=
  if methods.contains "__enter__" && methods.contains "__exit__" then
    Except.ok ()
  else
    Except.error "object does not support the context manager protocol"

/-- Python attribute access `obj.attr` on an object whose class
declares the attribute names `fields`: any other name raises
`AttributeError`. -/
def pyGetAttr (attr : String) (fields : List String) : Except String Unit :=
  if fields.contains attr then Except.ok () else Except.error "AttributeError"

namespace TradingOrchestrator

/-- The duplicate-message check of `process_message`
(`src/core/orchestrator.py`, lines 134-143): the message hash was
processed within the last `duplicate_window` seconds. -/
def isDuplicate (o : TradingOrchestrator) (message : String) (now : ℕ) :
    Bool :=
  match assocLookup o.processed_alerts message with
  | some last_processed => now - last_processed < o.duplicate_window
  | none => false

/-- Everything observable about one `process_message` call: the updated
orchestrator, the returned boolean, and whether
`ExecutionService.execute_trade` was invoked. -/
structure ProcessResult where
  state : TradingOrchestrator
  returnValue : Bool
  executedTrade : Bool
deriving Repr

/-- `TradingOrchestrator.process_message` (`src/core/orchestrator.py`,
lines 125-263).  `parseResult` stands for what
`parser_factory.parse_alert(message)` would return, and `execSuccess`
for the success flag of the `OrderResult` that
`executor.execute_trade` would produce — both are behind the
`with self.circuit_breakers[...]` statements, which raise at entry
because `CircuitBreaker` defines no `__enter__`/`__exit__`
(`CircuitBreaker.methodNames`); each stage's surrounding `try` catches
that exception, counts `alerts_failed`, and returns `False`. -/
def processMessage (o : TradingOrchestrator) (message : String)
    (now : ℕ) (today : ℕ) (parseResult : Option AlertInfo)
    (execSuccess : Bool) : ProcessResult :=
  let o1 := { o with stats :=
    { o.stats with alerts_received := o.stats.alerts_received + 1 } }
  if o1.isDuplicate message now then
    ⟨{ o1 with stats := { o1.stats with
        alerts_rejected := o1.stats.alerts_rejected + 1 } }, false, false⟩
  else
    match pyWithEnter CircuitBreaker.methodNames with
    | Except.error _ =>
      -- `with self.circuit_breakers['parser']:` raises; caught at line 164
      ⟨{ o1 with stats := { o1.stats with
          alerts_failed := o1.stats.alerts_failed + 1 } }, false, false⟩
    | Except.ok _ =>
      match parseResult with
      | none =>
        ⟨{ o1 with stats := { o1.stats with
            alerts_failed := o1.stats.alerts_failed + 1 } }, false, false⟩
      | some alert =>
        match pyWithEnter CircuitBreaker.methodNames with
        | Except.error _ =>
          -- `with self.circuit_breakers['risk_guard']:` raises; caught at 205
          ⟨{ o1 with stats := { o1.stats with
              alerts_failed := o1.stats.alerts_failed + 1 } }, false, false⟩
        | Except.ok _ =>
          let evalRes := o1.risk_guard.evaluateAlert alert now today
          let o2 := { o1 with risk_guard := evalRes.1 }
          -- line 193 reads `risk_result.approved`; `evaluate_alert` returns
          -- `Optional[OrderInfo]`, and neither `None` nor `OrderInfo` has an
          -- `approved` attribute, so the access raises; caught at line 205
          match pyGetAttr "approved" OrderInfo.fieldNames with
          | Except.error _ =>
            ⟨{ o2 with stats := { o2.stats with
                alerts_failed := o2.stats.alerts_failed + 1 } }, false, false⟩
          | Except.ok _ =>
            match pyWithEnter CircuitBreaker.methodNames with
            | Except.error _ =>
              -- `with self.circuit_breakers['executor']:` raises; caught at 256
              ⟨{ o2 with stats := { o2.stats with
                  orders_failed := o2.stats.orders_failed + 1 } }, false, false⟩
            | Except.ok _ =>
              let o3 := { o2 with
                processed_alerts := assocSet o2.processed_alerts message now,
                stats := { o2.stats with
                  alerts_processed := o2.stats.alerts_processed + 1,
                  orders_placed := o2.stats.orders_placed +
                    (if execSuccess then 1 else 0),
                  orders_filled := o2.stats.orders_filled +
                    (if execSuccess then 1 else 0),
                  orders_failed := o2.stats.orders_failed +
                    (if execSuccess then 0 else 1) } }
              ⟨o3, execSuccess, true⟩

end TradingOrchestrator

/-- The alert that `StandardAlertParser.parse_alert`
(`src/core/parser.py`, lines 40-97) extracts from the end-to-end
scenario text `"Bullish Bias\nDetected Symbol: NQ\nPrice: 19656.00\n
Strategy: Test (ID 3)"`: the bias regex matches `Bullish` giving
direction `"bull"`, the symbol regex captures `NQ`, the price regex
captures `19656.00`, and the strategy regex captures name `Test` with
ID group `3`, so `strategy_id = "3"`; no `Market:` line is present. -/
def scenarioAlert : AlertInfo :=
  { symbol := "NQ", price := 19656, direction := "bull",
    strategy_id := "3", correlation_id := "" }

/-! ## Helper lemmas -/

/-- Class `CircuitBreaker` defines neither `__enter__` nor `__exit__`,
so Python's `with` statement on one of its instances raises. -/
theorem pyWithEnter_circuitBreaker :
    pyWithEnter CircuitBreaker.methodNames =
      Except.error "object does not support the context manager protocol" :=
  rfl

/-- `isDuplicate` only reads `processed_alerts` and `duplicate_window`,
so it is unaffected by a stats update. -/
theorem isDuplicate_stats (o : TradingOrchestrator)
    (st : OrchestratorStats) (message : String) (now : ℕ) :
    TradingOrchestrator.isDuplicate { o with stats := st } message now =
      o.isDuplicate message now :=
  rfl

/-! ## Claim C1 -/

/-- C1: For every input message and metadata,
`TradingOrchestrator.process_message` returns `False` and never invokes
`ExecutionService.execute_trade`: the statement
`with self.circuit_breakers['parser']:` fails because `CircuitBreaker`
defines no `__enter__`/`__exit__` context-manager methods, the
resulting exception is caught by the surrounding `try`, the
`alerts_failed` counter is incremented, and `False` is returned before
risk evaluation or execution is reached (on the duplicate-message
path the call likewise returns `False`, via `alerts_rejected`). -/
theorem c1_process_message_always_false (o : TradingOrchestrator)
    (message : String) (now today : ℕ) (parseResult : Option AlertInfo)
    (execSuccess : Bool) :
    (o.processMessage message now today parseResult execSuccess).returnValue
        = false ∧
    (o.processMessage message now today parseResult execSuccess).executedTrade
        = false ∧
    (o.isDuplicate message now = false →
      (o.processMessage message now today parseResult
          execSuccess).state.stats.alerts_failed =
        o.stats.alerts_failed + 1) ∧
    (o.isDuplicate message now = true →
      (o.processMessage message now today parseResult
          execSuccess).state.stats.alerts_rejected =
        o.stats.alerts_rejected + 1) := by
  have hsd : ∀ st : OrchestratorStats,
      TradingOrchestrator.isDuplicate { o with stats := st } message now =
        o.isDuplicate message now := fun _ => rfl
  unfold TradingOrchestrator.processMessage
  rw [pyWithEnter_circuitBreaker]
  cases hd : o.isDuplicate message now <;> simp [hsd, hd]

/-- Witness for C1 at a concrete input: a fresh orchestrator, the
message `"alert"`, wall clock 5. -/
theorem c1_witness :
    (TradingOrchestrator.processMessage {} "alert" 5 0 none
        true).returnValue = false ∧
    (TradingOrchestrator.processMessage {} "alert" 5 0 none
        true).state.stats.alerts_failed = 1 := by
  refine ⟨(c1_process_message_always_false {} "alert" 5 0 none true).1, ?_⟩
  have h := (c1_process_message_always_false {} "alert" 5 0 none
    true).2.2.1 (by rfl)
  simpa using h

/-! ## Claim C2 -/

/-- Evaluating the scenario-A alert against a default
`RiskGuardService` produces an approved 1-share order. -/
theorem scenarioEvalOrder :
    (RiskGuardService.evaluateAlert {} scenarioAlert 1000 0).2.order =
      some { symbol := "NQ", action := "BUY", quantity := 1,
             order_type := "MKT", price := some 19656,
             strategy_id := some "3", correlation_id := some "",
             time_in_force := "DAY" } := by
  unfold RiskGuardService.evaluateAlert RiskGuardService.checkDailyReset
    RiskGuardService.getAccountInfo RiskGuardService.calcPositionSize
  norm_num [scenarioAlert, assocLookup, RiskGuardService.mockAccount,
    pyInt, Int.floor_eq_zero_iff, Set.mem_Ico]

/-- C2 counterexample: on the scenario-A alert (symbol NQ, price
19656.00, direction bull) against the default $100,000 mock account
with `max_position_size = 0.02`, `evaluate_alert` does NOT reject:
`int(2000 / 19656.00) = 0` is bumped to the minimum of 1 share by
`_calculate_position_size` (`src/core/risk_guard.py`, lines 142-143),
and an approved order for 1 share is returned. -/
theorem c2_counterexample :
    (RiskGuardService.evaluateAlert {} scenarioAlert 1000 0).2.order =
      some { symbol := "NQ", action := "BUY", quantity := 1,
             order_type := "MKT", price := some 19656,
             strategy_id := some "3", correlation_id := some "",
             time_in_force := "DAY" } :=
  scenarioEvalOrder

/-- C2 (amended): on the scenario-A alert against a $100,000 account
with `max_position_size = 0.02`, the Risk Guard computes quantity
`max 1 (int(2000 / 19656.00)) = 1` and approves the alert; generally,
the sized quantity is `max 1 (int(dollar_risk / reference_price))`
whenever `reference_price > 0` (the minimum of 1 share applies
regardless of the sign of `dollar_risk`), and `reference_price ≤ 0`
yields quantity 0 (rejected). -/
theorem c2_position_sizing (s : RiskGuardService) (alert : AlertInfo)
    (account : AccountInfo) :
    (0 < alert.price →
      (s.calcPositionSize alert account).2 =
        max 1 (pyInt (account.balance * s.max_position_size
          / alert.price))) ∧
    (alert.price ≤ 0 → (s.calcPositionSize alert account).2 = 0) ∧
    (RiskGuardService.evaluateAlert {} scenarioAlert 1000 0).2.order.map
        OrderInfo.quantity = some 1 := by
  refine ⟨?_, ?_, by rw [scenarioEvalOrder]; rfl⟩
  · intro h
    unfold RiskGuardService.calcPositionSize
    rw [if_neg (not_le.mpr h)]
    rcases lt_or_le
        (pyInt (account.balance * s.max_position_size / alert.price)) 1
      with h1 | h1
    · simp only [if_pos h1]
      exact (max_eq_left h1.le).symm
    · simp only [if_neg (not_lt.mpr h1)]
      exact (max_eq_right h1).symm
  · intro h
    unfold RiskGuardService.calcPositionSize
    rw [if_pos h]

/-- Witness for C2 at the scenario input itself. -/
theorem c2_witness :
    (0 : ℚ) < scenarioAlert.price ∧
    (RiskGuardService.calcPositionSize {} scenarioAlert
        RiskGuardService.mockAccount).2 =
      max 1 (pyInt (RiskGuardService.mockAccount.balance *
        ({} : RiskGuardService).max_position_size / scenarioAlert.price)) :=
  ⟨by decide,
    (c2_position_sizing {} scenarioAlert RiskGuardService.mockAccount).1
      (by decide)⟩

/-! ## Claim C3 -/

/-- C3 counterexample: with `failure_threshold = 3` (the orchestrator's
setting), the trace fail, success, fail, fail drives the breaker from
CLOSED to OPEN although the longest run of consecutive failures is 2:
a success while CLOSED leaves `failure_count` at 1 instead of
resetting it, so interleaved successes do not prevent opening. -/
theorem c3_counterexample :
    ((CircuitBreaker.execute { failure_threshold := 3 } 0 false).1.execute
        1 true).1.failure_count = 1 ∧
    ((((CircuitBreaker.execute { failure_threshold := 3 } 0
        false).1.execute 1 true).1.execute 2 false).1.execute 3
        false).1.state = CircuitState.OPEN := by
  decide

/-- C3 (amended): the breaker transitions from CLOSED to OPEN exactly
when the cumulative `failure_count` (accumulated since construction,
manual reset, or a HALF_OPEN trial success) reaches
`failure_threshold`; a successful call while CLOSED leaves both the
state and the failure count unchanged, so interleaved successes do
not prevent the circuit from opening. -/
theorem c3_closed_failure_accumulation (cb : CircuitBreaker) (now : ℕ)
    (h : cb.state = CircuitState.CLOSED) :
    (cb.execute now true).1.state = CircuitState.CLOSED ∧
    (cb.execute now true).1.failure_count = cb.failure_count ∧
    ((cb.execute now false).1.state = CircuitState.OPEN ↔
      cb.failure_threshold ≤ cb.failure_count + 1) := by
  unfold CircuitBreaker.execute CircuitBreaker.record_failure
  by_cases ht : cb.failure_threshold ≤ cb.failure_count + 1 <;>
    simp [h, ht]

/-- Witness for C3: a CLOSED breaker with threshold 3 and one failure
on record; a success keeps the count at 1, and one more failure does
not open the circuit (2 < 3). -/
theorem c3_witness :
    (({ failure_threshold := 3, failure_count := 1 } :
        CircuitBreaker).execute 9 true).1.failure_count = 1 ∧
    ¬ ((({ failure_threshold := 3, failure_count := 1 } :
        CircuitBreaker).execute 9 false).1.state = CircuitState.OPEN) := by
  have h := c3_closed_failure_accumulation
    { failure_threshold := 3, failure_count := 1 } 9 (by rfl)
  exact ⟨h.2.1, fun hc => absurd (h.2.2.mp hc) (by decide)⟩

/-! ## Claim C5 -/

/-- Each run of the retry loop starting at attempt index `i` with `rem`
retries in budget makes at most `i + rem + 1` attempts in total. -/
theorem retryLoop_attempts_le (cfg : RetryConfig) (r : ℕ → ℚ)
    (results : ℕ → FuncOutcome) :
    ∀ rem i : ℕ, (retryLoop cfg r results i rem).2.1 ≤ i + rem + 1 := by
  intro rem
  induction rem with
  | zero =>
    intro i
    unfold retryLoop
    cases results i <;> simp
  | succ n ih =>
    intro i
    unfold retryLoop
    have := ih (i + 1)
    cases hr : results i
    all_goals simp [hr]
    all_goals omega

/-- The `k`-th recorded delay of a retry-loop run starting at attempt
index `i` is the delay of attempt `i + k`. -/
theorem retryLoop_delays_get (cfg : RetryConfig) (r : ℕ → ℚ)
    (results : ℕ → FuncOutcome) :
    ∀ rem i k : ℕ, k < (retryLoop cfg r results i rem).2.2.length →
      (retryLoop cfg r results i rem).2.2.get? k =
        some (retryDelay cfg r (i + k)) := by
  intro rem
  induction rem with
  | zero =>
    intro i k hk
    unfold retryLoop at hk
    cases hr : results i <;> rw [hr] at hk <;> simp at hk
  | succ n ih =>
    intro i k
    unfold retryLoop
    cases hr : results i <;> intro hk
    · simp at hk
    · cases k with
      | zero => rfl
      | succ m =>
        have hk2 : m < (retryLoop cfg r results (i + 1) n).2.2.length := by
          simpa using hk
        have hm := ih (i + 1) m hk2
        have e : i + 1 + m = i + (m + 1) := by omega
        rw [e] at hm
        show (retryLoop cfg r results (i + 1) n).2.2.get? m =
          some (retryDelay cfg r (i + (m + 1)))
        exact hm
    · simp at hk

/-- C5 counterexample: with the default configuration
(`max_retries = 3`) and a callable that always raises a retryable
exception, the wrapped callable is attempted 4 times — not at most 3
— because `retry_with_backoff` re-raises only once
`retries > max_retries` (`src/utils/retry.py`, line 32). -/
theorem c5_counterexample :
    (retry_with_backoff {} (fun _ => 0)
        (fun _ => FuncOutcome.retryableErr)).2.1 = 4 ∧
    ¬ ((retry_with_backoff {} (fun _ => 0)
        (fun _ => FuncOutcome.retryableErr)).2.1 ≤
      ({} : RetryConfig).max_retries) := by
  constructor
  · rfl
  · intro h
    have h4 : (retry_with_backoff {} (fun _ => 0)
        (fun _ => FuncOutcome.retryableErr)).2.1 = 4 := rfl
    rw [h4] at h
    exact absurd h (by decide)

/-- C5 (amended): with `max_retries = N`, the wrapped callable is
attempted at most N + 1 times (the initial attempt plus up to N
retries); the delay before the (k+1)-th re-attempt equals
`initial_delay * backoff_factor ^ k` capped at `max_delay`,
multiplied — when jitter is enabled — by `0.5 + random()`, which lies
in [0.5, 1.5) since `random()` lies in [0, 1); exceptions outside the
configured retryable types propagate after the current attempt
without any retry. -/
theorem c5_retry_behavior (cfg : RetryConfig) (r : ℕ → ℚ)
    (results : ℕ → FuncOutcome) :
    (retry_with_backoff cfg r results).2.1 ≤ cfg.max_retries + 1 ∧
    (∀ (k : ℕ) (hk : k < (retry_with_backoff cfg r results).2.2.length),
      (retry_with_backoff cfg r results).2.2.get ⟨k, hk⟩ =
        min (cfg.initial_delay * cfg.backoff_factor ^ k) cfg.max_delay *
          (if cfg.jitter then 1/2 + r k else 1)) ∧
    (∀ k : ℕ, 0 ≤ r k → r k < 1 →
      (1 : ℚ)/2 ≤ 1/2 + r k ∧ 1/2 + r k < 3/2) ∧
    (results 0 = FuncOutcome.otherErr →
      retry_with_backoff cfg r results = (RetryFinal.raisedOther, 1, [])) := by
  refine ⟨?_, ?_, ?_, ?_⟩
  · simpa using retryLoop_attempts_le cfg r results cfg.max_retries 0
  · intro k hk
    have h : (retry_with_backoff cfg r results).2.2.get? k =
        some (retryDelay cfg r (0 + k)) :=
      retryLoop_delays_get cfg r results cfg.max_retries 0 k hk
    rw [List.get?_eq_get hk] at h
    rw [Option.some.inj h]
    unfold retryDelay
    rw [Nat.zero_add]
    cases hj : cfg.jitter <;> simp [hj]
  · intro k h0 h1
    constructor <;> linarith
  · intro h
    unfold retry_with_backoff
    cases hm : cfg.max_retries <;> unfold retryLoop <;> rw [h]

/-- Witness for C5: a callable that fails retryably once then
succeeds, under jitter reading 1/4; and a callable that raises a
non-retryable exception at once. -/
theorem c5_witness :
    (retry_with_backoff {} (fun _ => 1/4)
        (fun i => if i = 0 then FuncOutcome.retryableErr
          else FuncOutcome.ok)).2.1 ≤ ({} : RetryConfig).max_retries + 1 ∧
    ((fun i => if i = 0 then FuncOutcome.otherErr else FuncOutcome.ok)
        (0 : ℕ) = FuncOutcome.otherErr) ∧
    retry_with_backoff {} (fun _ => 1/4)
        (fun i => if i = 0 then FuncOutcome.otherErr else FuncOutcome.ok) =
      (RetryFinal.raisedOther, 1, []) := by
  refine ⟨(c5_retry_behavior {} (fun _ => 1/4) _).1, by decide, ?_⟩
  exact (c5_retry_behavior {} (fun _ => 1/4) _).2.2.2 (by decide)

/-! ## Claim C4 -/

/-- C4: once the breaker is OPEN, every call strictly within
`reset_timeout` of the last failure raises the circuit-open error
without invoking the protected function and without changing state;
once `reset_timeout` has elapsed the breaker moves to HALF_OPEN and
(with `half_open_max_calls ≥ 1`, default 1) permits a trial
invocation, after which the circuit is judged: a trial success
transitions to CLOSED and resets `failure_count` to 0, a trial
failure transitions back to OPEN. -/
theorem c4_open_circuit_behavior (cb : CircuitBreaker) (now : ℕ)
    (ok : Bool) (hopen : cb.state = CircuitState.OPEN) :
    (now - cb.last_failure_time < cb.reset_timeout →
      cb.execute now ok = (cb, CircuitBreaker.ExecOutcome.circuitOpenError)) ∧
    (cb.reset_timeout ≤ now - cb.last_failure_time →
      1 ≤ cb.half_open_max_calls →
      ((cb.execute now ok).2.invoked = true ∧
       (cb.execute now ok).1.state =
         (if ok then CircuitState.CLOSED else CircuitState.OPEN) ∧
       (ok = true → (cb.execute now ok).1.failure_count = 0))) := by
  constructor
  · intro hlt
    unfold CircuitBreaker.execute
    rw [if_pos ⟨hopen, not_le.mpr hlt⟩]
  · intro hle hmax
    unfold CircuitBreaker.execute CircuitBreaker.record_failure
    cases ok <;>
      simp [hopen, not_le.mpr (Nat.lt_of_lt_of_le Nat.zero_lt_one hmax),
        CircuitBreaker.ExecOutcome.invoked, hle]

/-- Witness for C4: an OPEN breaker that failed at time 0 with a
60-second reset timeout, probed at time 60 with a succeeding call. -/
theorem c4_witness :
    (60 : ℕ) ≤ 60 - ({ state := CircuitState.OPEN } :
        CircuitBreaker).last_failure_time ∧
    (({ state := CircuitState.OPEN } : CircuitBreaker).execute 60
        true).1.state = CircuitState.CLOSED := by
  have h := (c4_open_circuit_behavior { state := CircuitState.OPEN } 60
    true (by rfl)).2 (by decide) (by decide)
  exact ⟨by decide, by simpa using h.2.1⟩

/-! ## Claim C6 -/

/-- C6: whenever `_schedule_reconnect` actually arms a reconnect timer
and that scheduling is the Nth (the attempt counter, previously N-1,
is incremented to N and N is within `reconnect_max`), the requested
delay is `min(30, 2^N)` seconds; and the attempt counter is reset to
zero upon receipt of the READY session-ack dispatch frame. -/
theorem c6_reconnect_backoff :
    (∀ (s : GatewayState) (N : ℕ), s.running = true →
      s.reconnect_count + 1 = N → N ≤ s.reconnect_max →
      (DiscordGateway.scheduleReconnect s).effect =
        ScheduleEffect.timerSet (min 30 (2 ^ N)) ∧
      (DiscordGateway.scheduleReconnect s).state.reconnect_count = N) ∧
    (∀ (s : GatewayState) (sid : String) (seq : Option ℕ),
      (DiscordGateway.onDispatch s "READY" sid seq).1.reconnect_count = 0) := by
  constructor
  · intro s N hrun hN hle
    unfold DiscordGateway.scheduleReconnect
    rw [hrun]
    have hgt : ¬ (s.reconnect_max < N) := by omega
    simp [hN, hgt]
  · intro s sid seq
    unfold DiscordGateway.onDispatch
    cases seq <;> simp

/-- Witness for C6: a running gateway with 2 prior scheduling
increments arms its 3rd attempt with delay `min(30, 2^3) = 8`. -/
theorem c6_witness :
    ({ running := true, reconnect_count := 2 } : GatewayState).running
        = true ∧
    (DiscordGateway.scheduleReconnect
        { running := true, reconnect_count := 2 }).effect =
      ScheduleEffect.timerSet (min 30 (2 ^ 3)) ∧
    (DiscordGateway.onDispatch {} "READY" "sess"
        (some 7)).1.reconnect_count = 0 :=
  ⟨rfl,
    (c6_reconnect_backoff.1 { running := true, reconnect_count := 2 } 3
      rfl rfl (by decide)).1,
    c6_reconnect_backoff.2 {} "sess" (some 7)⟩

/-! ## Claim C7 -/

/-- C7 counterexample: a running gateway whose 20 reconnect attempts
(the configured `reconnect_max`) are spent: the 21st
`_schedule_reconnect` call arms no timer (retrying stops), raises no
exception, and only emits an error-level log record — nothing is
surfaced to the caller or the orchestrator host. -/
theorem c7_counterexample :
    DiscordGateway.scheduleReconnect
        { running := true, reconnect_count := 20 } =
      ⟨{ running := true, reconnect_count := 21, reconnect_max := 20,
         session_id := none, last_sequence := none },
        ScheduleEffect.noTimer, none, true⟩ := by
  decide

/-- C7 (amended): when the reconnect-attempt budget is exhausted
(`reconnect_count` incremented past `reconnect_max`), the gateway
stops retrying — no reconnect timer is armed — and logs an error, but
it raises no exception and surfaces no fatal-connectivity error to
the caller: the method returns normally and the condition is only
logged. -/
theorem c7_exhaustion_logs_only (s : GatewayState)
    (hrun : s.running = true)
    (hmax : s.reconnect_max < s.reconnect_count + 1) :
    (DiscordGateway.scheduleReconnect s).effect = ScheduleEffect.noTimer ∧
    (DiscordGateway.scheduleReconnect s).raisedException = none ∧
    (DiscordGateway.scheduleReconnect s).errorLogged = true := by
  unfold DiscordGateway.scheduleReconnect
  rw [hrun]
  simp [hmax]

/-- Witness for C7 at the concrete exhausted state. -/
theorem c7_witness :
    ({ running := true, reconnect_count := 20 } : GatewayState).running
        = true ∧
    (DiscordGateway.scheduleReconnect
        { running := true, reconnect_count := 20 }).raisedException
      = none :=
  ⟨rfl,
    (c7_exhaustion_logs_only { running := true, reconnect_count := 20 }
      rfl (by decide)).2.1⟩

/-! ## Claim C8 -/

/-- C8 counterexample: with the default execution configuration
(`default_order_type = "MARKET"`, slippage 0.001), a bullish alert at
price 100 produces an order whose `order_type` is `"MARKET"` and
whose `price` is `some 100.1` — a market order that DOES carry a
price: `execute_trade` attaches the slippage-adjusted price whenever
`alert.price` is truthy, regardless of the order type
(`src/core/executor.py`, lines 89-100). -/
theorem c8_counterexample :
    (ExecutionService.buildOrder {}
        { symbol := "NQ", price := 100, direction := "bull",
          strategy_id := "1", correlation_id := "" } 20
        "cid").order_type = "MARKET" ∧
    (ExecutionService.buildOrder {}
        { symbol := "NQ", price := 100, direction := "bull",
          strategy_id := "1", correlation_id := "" } 20
        "cid").price = some (1001/10) := by
  constructor <;> norm_num [ExecutionService.buildOrder]

/-- C8 (amended): for every trade with a positive reference price, the
slippage fraction is applied in the direction unfavorable to the
trader — a bullish (`"bull"`) alert produces a BUY order priced at
`price * (1 + slippage)`, a non-bullish alert produces a SELL order
priced at `price * (1 - slippage)` — and the order always carries
this adjusted price, with `order_type` set to the configured default,
market or not (`price` is `None` only when the alert's price is
zero/absent). -/
theorem c8_slippage_direction (cfg : ExecutionConfig) (alert : AlertInfo)
    (q : ℤ) (cid : String) (hp : (0 : ℚ) < alert.price) :
    (alert.direction = "bull" →
      (ExecutionService.buildOrder cfg alert q cid).action = "BUY" ∧
      (ExecutionService.buildOrder cfg alert q cid).price =
        some (alert.price * (1 + cfg.default_slippage))) ∧
    (alert.direction ≠ "bull" →
      (ExecutionService.buildOrder cfg alert q cid).action = "SELL" ∧
      (ExecutionService.buildOrder cfg alert q cid).price =
        some (alert.price * (1 - cfg.default_slippage))) ∧
    (ExecutionService.buildOrder cfg alert q cid).order_type =
      cfg.default_order_type := by
  have hne : alert.price ≠ 0 := ne_of_gt hp
  unfold ExecutionService.buildOrder
  by_cases hd : alert.direction = "bull" <;>
    simp [hd, hne, sub_eq_add_neg]

/-- Witness for C8: the bullish price-100 alert under the default
configuration. -/
theorem c8_witness :
    (0 : ℚ) < 100 ∧
    (ExecutionService.buildOrder {}
        { symbol := "NQ", price := 100, direction := "bull",
          strategy_id := "1", correlation_id := "" } 20
        "cid").price =
      some (100 * (1 + ({} : ExecutionConfig).default_slippage)) :=
  ⟨by norm_num,
    ((c8_slippage_direction {}
        { symbol := "NQ", price := 100, direction := "bull",
          strategy_id := "1", correlation_id := "" } 20 "cid"
        (by norm_num)).1 rfl).2⟩

/-! ## Claim C9 -/

/-- C9: a message whose id is already in the processed set never
reaches the signal callback (and the processor state is unchanged);
the processed-id set never grows beyond 1000 entries across calls
(1000 is preserved); and whenever the post-insertion size exceeds the
cap, exactly 500 entries are evicted. -/
theorem c9_dedup_and_cap (mp : MessageProcessor) (m : MessageData) :
    (m.id ∈ mp.processed_message_ids →
      (mp.processMessage m).2 = false ∧ (mp.processMessage m).1 = mp) ∧
    (mp.processed_message_ids.length ≤ 1000 →
      (mp.processMessage m).1.processed_message_ids.length ≤ 1000) ∧
    (m.channel_id ∈ mp.channel_ids → m.id ∉ mp.processed_message_ids →
      1000 < mp.processed_message_ids.length + 1 →
      (mp.processMessage m).1.processed_message_ids.length =
        mp.processed_message_ids.length + 1 - 500) := by
  refine ⟨?_, ?_, ?_⟩
  · intro hmem
    unfold MessageProcessor.processMessage
    simp [hmem]
  · intro hlen
    unfold MessageProcessor.processMessage
    by_cases hc : m.channel_id ∈ mp.channel_ids ∧
        m.id ∉ mp.processed_message_ids
    · rw [if_pos hc]
      by_cases hgt : mp.processed_message_ids.length + 1 > 1000 <;>
        simp [hgt] <;> omega
    · rw [if_neg hc]
      exact hlen
  · intro hch hmem hgt
    unfold MessageProcessor.processMessage
    rw [if_pos ⟨hch, hmem⟩]
    simp [hgt]

/-- Witness for C9: a processor that has already seen message id
`"m1"` on channel `"c"`; redelivery invokes no callback. -/
theorem c9_witness :
    "m1" ∈ ["m1"] ∧
    (MessageProcessor.processMessage
        { channel_ids := ["c"], signal_keywords := ["bias"],
          processed_message_ids := ["m1"] }
        { id := "m1", channel_id := "c", content := "Bullish Bias",
          author := "a" }).2 = false :=
  ⟨by decide,
    ((c9_dedup_and_cap
        { channel_ids := ["c"], signal_keywords := ["bias"],
          processed_message_ids := ["m1"] }
        { id := "m1", channel_id := "c", content := "Bullish Bias",
          author := "a" }).1 (by decide)).1⟩

/-! ## Claim C10 -/

/-- C10: with no account-info provider configured — which is how the
orchestrator constructs its `RiskGuardService`
(`src/core/orchestrator.py`, line 64) — `_get_account_info` returns
the built-in mock snapshot (balance 100000.0, no positions, buying
power 100000.0) without querying any backend, and every
`evaluate_alert` call leaves the provider unqueried. -/
theorem c10_mock_account :
    RiskGuardService.getAccountInfo none =
      (some { balance := 100000, positions := [],
              buying_power := some 100000 }, false) ∧
    (∀ (s : RiskGuardService) (alert : AlertInfo) (now today : ℕ),
      s.account_info_provider = none →
      (s.evaluateAlert alert now today).2.providerQueried = false) ∧
    ({} : TradingOrchestrator).risk_guard.account_info_provider = none := by
  refine ⟨rfl, ?_, rfl⟩
  intro s alert now today hp
  have hp2 : (s.checkDailyReset today).account_info_provider = none := by
    unfold RiskGuardService.checkDailyReset
    split <;> simpa using hp
  unfold RiskGuardService.evaluateAlert
  simp only [hp2, RiskGuardService.getAccountInfo]
  repeat' split
  all_goals simp

/-- Witness for C10: the default-constructed risk guard (no provider)
evaluating the scenario alert queries no backend. -/
theorem c10_witness :
    ({} : RiskGuardService).account_info_provider = none ∧
    (RiskGuardService.evaluateAlert {} scenarioAlert 1000
        0).2.providerQueried = false :=
  ⟨rfl, c10_mock_account.2.1 {} scenarioAlert 1000 0 rfl⟩
